import Mathlib

/-! Verification development for the Meffec relay server
(`src/Server/meffec_server.py` and `src/Server/data_models.py`).

Embedding conventions:
* Websocket connection handles are identified by natural-number ids (`wsId`).
  The server creates exactly one `ConnectedMeffecClient` per accepted
  connection, so dataclass equality between client objects coincides with
  equality of their handles, which we model as `wsId` equality.
* JSON values are modelled by `JValue`; Python dict subscripting `d[k]` is
  `JValue.get`, returning `none` when the key is absent (Python `KeyError`).
* An outbound `websocket.send` is recorded as a `Sent` record; a transport
  that has already closed is listed in the `closed` parameter, and sending to
  it raises `connectionClosed` (Python `websockets.exceptions.ConnectionClosed`).
* Every handler returns the updated `ServerInformation`, the list of messages
  sent so far, and `Option PyError`.  A `some` error means a Python exception
  escaped the handler; state mutations performed before the raise are kept,
  matching Python's mutate-then-raise order. -/

/-- JSON values.  Objects and arrays are encoded spine-style (`objCons` /
`arrCons`) so that decidable equality can be derived and the kernel can
evaluate concrete instances. -/
inductive JValue where
  | str (s : String)
  | null
  | objNil
  | objCons (key : String) (val : JValue) (rest : JValue)
  | arrNil
  | arrCons (head : JValue) (tail : JValue)
deriving DecidableEq, Repr

/-- Build a JSON object from a field list. -/
def JValue.mkObj (fields : List (String × JValue)) : JValue :=
  fields.foldr (fun kv r => JValue.objCons kv.1 kv.2 r) JValue.objNil

/-- Build a JSON array from an element list. -/
def JValue.mkArr (elems : List JValue) : JValue :=
  elems.foldr JValue.arrCons JValue.arrNil

/-- Python dict subscripting `d[key]`: `none` models `KeyError` (or `TypeError`
when the subscripted value is not a dict).  Python dicts have unique keys, so
first-match lookup is exact. -/
def JValue.get : JValue → String → Option JValue
  | .objCons k v rest, key => if k = key then some v else rest.get key
  | _, _ => none

/-- Client roles, mirroring `data_models.MeffecClientType`. -/
inductive MeffecClientType where
  | APP
  | CONTROLLER
  | DEVICE
deriving DecidableEq, Repr

/-- The `value` of each enum member in `data_models.MeffecClientType`. -/
def MeffecClientType.value : MeffecClientType → String
  | .APP => "app"
  | .CONTROLLER => "controller"
  | .DEVICE => "device"

/-- Mirrors `MeffecClientType.get_client_type`: scan the members in
declaration order and return the one whose `value` equals `type_name`;
Python returns `None` when nothing matches. -/
def MeffecClientType.get_client_type (type_name : String) : Option MeffecClientType :=
  if type_name = MeffecClientType.APP.value then some .APP
  else if type_name = MeffecClientType.CONTROLLER.value then some .CONTROLLER
  else if type_name = MeffecClientType.DEVICE.value then some .DEVICE
  else none

/-- Mirrors `data_models.ConnectedMeffecClient`.  `type` and `name` start as
Python `None` (`Option.none` / `JValue.null`) and are set by
`authenticate_client`. -/
structure ConnectedMeffecClient where
  wsId : Nat
  type : Option MeffecClientType
  name : JValue
deriving DecidableEq, Repr

/-- Mirrors `ConnectedMeffecClient.get_controller_information`, which returns
`{"type": self.type.value, "name": self.name}`.  When `type` is Python `None`,
the attribute access `None.value` raises `AttributeError`, modelled as
`Option.none`. -/
def ConnectedMeffecClient.get_controller_information
    (c : ConnectedMeffecClient) : Option JValue :=
  c.type.map fun t => JValue.mkObj [("type", .str t.value), ("name", c.name)]

/-- Mirrors `data_models.ServerInformation`.  The `controller_client`
reference is stored as the controller object's connection handle id. -/
structure ServerInformation where
  connected_clients : List ConnectedMeffecClient
  available_effects : JValue
  controller_client : Option Nat
deriving DecidableEq, Repr

/-- The module-level `server_information = ServerInformation([], {}, None)`. -/
def initialServerInformation : ServerInformation :=
  ⟨[], JValue.objNil, none⟩

/-- The connection-handle ids currently in the registry. -/
def serverIds (s : ServerInformation) : List Nat :=
  s.connected_clients.map (fun c => c.wsId)

/-- One recorded `websocket.send`: destination handle id and JSON payload. -/
structure Sent where
  dest : Nat
  payload : JValue
deriving DecidableEq, Repr

/-- Python exceptions that can escape the server's handlers. -/
inductive PyError where
  | connectionClosed
  | keyError
  | attributeError
  | valueError
  | indexError
deriving DecidableEq, Repr

/-- Payload of the periodic heartbeat envelope. -/
def heartbeatPayload : JValue :=
  .mkObj [("type", .str "heartbeat"),
          ("data", .str "*imagine a heartbeat sound effect here*")]

/-- Payload sent to an app client by `send_effects_to_app_client`. -/
def effectsPayload (effects : JValue) : JValue :=
  .mkObj [("type", .str "information"),
          ("data", .mkObj [("type", .str "available_effects"), ("data", effects)])]

/-- Payload sent to the controller by `send_connected_clients_to_controller`. -/
def rosterPayload (roster : JValue) : JValue :=
  .mkObj [("type", .str "information"),
          ("data", .mkObj [("type", .str "connected_clients"), ("data", roster)])]

/-- Payload sent to a device client by `forward_device_action`. -/
def deviceActionPayload (d : JValue) : JValue :=
  .mkObj [("type", .str "device_action"), ("data", d)]

/-- The list comprehension in `send_connected_clients_to_controller`:
`[client.get_controller_information() for client in connected_clients]`.
Returns `none` as soon as one element raises `AttributeError`. -/
def rosterEntries : List ConnectedMeffecClient → Option (List JValue)
  | [] => some []
  | c :: rest =>
    match c.get_controller_information with
    | none => none
    | some j => (rosterEntries rest).map (fun es => j :: es)

/-- Mirrors `send_connected_clients_to_controller`: no controller reference
means an early return; otherwise build the roster (which can raise
`AttributeError` on a role-less client) and send it to the controller's
websocket (which can raise `ConnectionClosed`).  The function never mutates
`server_information`, so only the sends and the error are returned. -/
def send_connected_clients_to_controller (closed : List Nat)
    (s : ServerInformation) : List Sent × Option PyError :=
  match s.controller_client with
  | none => ([], none)
  | some ctrl =>
    match rosterEntries s.connected_clients with
    | none => ([], some .attributeError)
    | some entries =>
      if closed.contains ctrl then ([], some .connectionClosed)
      else ([⟨ctrl, rosterPayload (JValue.mkArr entries)⟩], none)

/-- Mirrors `send_effects_to_app_client`: one send of the stored catalog. -/
def send_effects_to_app_client (closed : List Nat) (s : ServerInformation)
    (wsId : Nat) : List Sent × Option PyError :=
  if closed.contains wsId then ([], some .connectionClosed)
  else ([⟨wsId, effectsPayload s.available_effects⟩], none)

/-- Loop body of `send_effects_to_all_connected_app_clients`: iterate the
registry and send the catalog to every client whose role is `APP`; the loop
has no `try`, so the first `ConnectionClosed` aborts it. -/
def sendEffectsLoop (closed : List Nat) (s : ServerInformation) :
    List ConnectedMeffecClient → List Sent × Option PyError
  | [] => ([], none)
  | c :: rest =>
    if c.type = some .APP then
      let r := send_effects_to_app_client closed s c.wsId
      match r.2 with
      | some e => (r.1, some e)
      | none =>
        let r2 := sendEffectsLoop closed s rest
        (r.1 ++ r2.1, r2.2)
    else sendEffectsLoop closed s rest

/-- Mirrors `send_effects_to_all_connected_app_clients`. -/
def send_effects_to_all_connected_app_clients (closed : List Nat)
    (s : ServerInformation) : List Sent × Option PyError :=
  sendEffectsLoop closed s s.connected_clients

/-- Mirrors `process_information`: only an `available_effects` information
message does anything — it replaces the stored catalog wholesale and then
pushes the new catalog to all app clients. -/
def process_information (closed : List Nat) (s : ServerInformation)
    (message : JValue) : ServerInformation × List Sent × Option PyError :=
  match message.get "type" with
  | none => (s, [], some .keyError)
  | some t =>
    if t = .str "available_effects" then
      match message.get "data" with
      | none => (s, [], some .keyError)
      | some d =>
        let s2 := { s with available_effects := d }
        let r := send_effects_to_all_connected_app_clients closed s2
        (s2, r.1, r.2)
    else (s, [], none)

/-- Mirrors `authenticate_client`.  Python mutates the client object in
place; the registry entry with the handler's `wsId` is that object, so the
update is applied to it.  Assignment order follows the source: `client.type`
first, then `client.name` (whose dict lookup can raise `KeyError` after the
type was already set), then the controller overwrite, the app catalog send,
and finally the roster push. -/
def authenticate_client (closed : List Nat) (s : ServerInformation)
    (wsId : Nat) (message : JValue) :
    ServerInformation × List Sent × Option PyError :=
  match message.get "type" with
  | none => (s, [], some .keyError)
  | some tn =>
    let t : Option MeffecClientType :=
      match tn with
      | .str n => MeffecClientType.get_client_type n
      | _ => none
    let s1 := { s with connected_clients :=
      s.connected_clients.map fun c =>
        if c.wsId = wsId then { c with type := t } else c }
    match message.get "name" with
    | none => (s1, [], some .keyError)
    | some nm =>
      let s2 := { s1 with connected_clients :=
        s1.connected_clients.map fun c =>
          if c.wsId = wsId then { c with name := nm } else c }
      let s3 := if t = some .CONTROLLER then
          { s2 with controller_client := some wsId } else s2
      let r1 := if t = some .APP then send_effects_to_app_client closed s3 wsId
                else ([], none)
      match r1.2 with
      | some e => (s3, r1.1, some e)
      | none =>
        let r2 := send_connected_clients_to_controller closed s3
        (s3, r1.1 ++ r2.1, r2.2)

/-- Python `list.remove`: delete the first element equal to the given one
(`none` models the `ValueError` raised when it is absent).  Under the
one-object-per-handle discipline, dataclass equality is handle equality. -/
def removeFirstById : List ConnectedMeffecClient → Nat →
    Option (List ConnectedMeffecClient)
  | [], _ => none
  | c :: rest, i =>
    if c.wsId = i then some rest
    else (removeFirstById rest i).map (fun l => c :: l)

/-- Mirrors `disconnect_client`: `connected_clients.remove(client)` (which
raises `ValueError` when the client is absent, skipping the roster push)
followed by `send_connected_clients_to_controller`. -/
def disconnect_client (closed : List Nat) (s : ServerInformation)
    (wsId : Nat) : ServerInformation × List Sent × Option PyError :=
  match removeFirstById s.connected_clients wsId with
  | none => (s, [], some .valueError)
  | some l =>
    let s2 := { s with connected_clients := l }
    let r := send_connected_clients_to_controller closed s2
    (s2, r.1, r.2)

/-- The `finally` block of `websocket_connection_handler`: clear the
controller reference when this client is the controller, then
`disconnect_client`. -/
def handler_finally (closed : List Nat) (s : ServerInformation)
    (wsId : Nat) : ServerInformation × List Sent × Option PyError :=
  let s1 := if s.controller_client = some wsId then
      { s with controller_client := none } else s
  disconnect_client closed s1 wsId

/-- Loop body of `forward_device_action`: send the inner `data` payload,
retagged `device_action`, to every client with role `DEVICE`.  There is no
`try`, so the first `ConnectionClosed` (or a missing `data` key) aborts the
loop and propagates. -/
def forwardLoop (closed : List Nat) (device_action : JValue) :
    List ConnectedMeffecClient → List Sent × Option PyError
  | [] => ([], none)
  | c :: rest =>
    if c.type = some .DEVICE then
      match device_action.get "data" with
      | none => ([], some .keyError)
      | some d =>
        if closed.contains c.wsId then ([], some .connectionClosed)
        else
          let r := forwardLoop closed device_action rest
          (⟨c.wsId, deviceActionPayload d⟩ :: r.1, r.2)
    else forwardLoop closed device_action rest

/-- Mirrors `forward_device_action`.  The initial `logger.info` call
subscripts `device_action["device"]`, so a missing `device` key raises
`KeyError` before the loop runs; the `device` value is otherwise unused. -/
def forward_device_action (closed : List Nat) (s : ServerInformation)
    (device_action : JValue) : ServerInformation × List Sent × Option PyError :=
  match device_action.get "device" with
  | none => (s, [], some .keyError)
  | some _ =>
    let r := forwardLoop closed device_action s.connected_clients
    (s, r.1, r.2)

/-- Loop of `relay_message_to_all_clients`, with CPython list-iteration
semantics made explicit: the `for` statement iterates by index, and the
`except` branch removes the current element (`list.remove` deletes the first
equal element, which under unique handles is the current one), so the element
that shifts into the removed slot is skipped.  `kept` is the already-scanned
prefix of the evolving list, `rest` the unscanned suffix. -/
def relayScan (closed : List Nat) (payload : JValue) :
    List ConnectedMeffecClient → List ConnectedMeffecClient →
    List ConnectedMeffecClient × List Sent
  | kept, [] => (kept, [])
  | kept, c :: rest =>
    if closed.contains c.wsId then
      match rest with
      | [] => (kept, [])
      | d :: rest2 => relayScan closed payload (kept ++ [d]) rest2
    else
      let r := relayScan closed payload (kept ++ [c]) rest
      (r.1, ⟨c.wsId, payload⟩ :: r.2)

/-- Mirrors `relay_message_to_all_clients`: broadcast the whole envelope to
every client; a `ConnectionClosed` is caught and the client removed from the
registry (with no roster push and no controller-reference update). -/
def relay_message_to_all_clients (closed : List Nat) (s : ServerInformation)
    (message : JValue) : ServerInformation × List Sent × Option PyError :=
  let r := relayScan closed message [] s.connected_clients
  ({ s with connected_clients := r.1 }, r.2, none)

/-- Loop of one tick of `send_heartbeat_to_all_clients`, with the same
CPython iterate-while-mutating semantics as `relayScan`: a failed heartbeat
send runs `disconnect_client(client)` — remove the current element, then the
roster push — and the element shifting into the removed slot is skipped.  An
exception raised by the roster push inside the `except` branch is uncaught
and terminates the whole heartbeat task. -/
def heartbeatScan (closed : List Nat) (effects : JValue) (ctrl : Option Nat) :
    List ConnectedMeffecClient → List ConnectedMeffecClient →
    ServerInformation × List Sent × Option PyError
  | kept, [] => (⟨kept, effects, ctrl⟩, [], none)
  | kept, c :: rest =>
    if closed.contains c.wsId then
      let s2 : ServerInformation := ⟨kept ++ rest, effects, ctrl⟩
      let r := send_connected_clients_to_controller closed s2
      match r.2 with
      | some e => (s2, r.1, some e)
      | none =>
        match rest with
        | [] => (s2, r.1, none)
        | d :: rest2 =>
          let r2 := heartbeatScan closed effects ctrl (kept ++ [d]) rest2
          (r2.1, r.1 ++ r2.2.1, r2.2.2)
    else
      let r2 := heartbeatScan closed effects ctrl (kept ++ [c]) rest
      (r2.1, ⟨c.wsId, heartbeatPayload⟩ :: r2.2.1, r2.2.2)

/-- One tick of `send_heartbeat_to_all_clients` (the body of its `while True`
between two sleeps), run against the live registry — the source takes no
snapshot. -/
def send_heartbeat_to_all_clients_tick (closed : List Nat)
    (s : ServerInformation) : ServerInformation × List Sent × Option PyError :=
  heartbeatScan closed s.available_effects s.controller_client
    [] s.connected_clients

/-- Mirrors `handle_message`: dispatch on the envelope's `type` string; the
unmatched case relays the whole envelope to every client. -/
def handle_message (closed : List Nat) (s : ServerInformation) (wsId : Nat)
    (message : JValue) : ServerInformation × List Sent × Option PyError :=
  match message.get "type" with
  | none => (s, [], some .keyError)
  | some t =>
    if t = .str "authentication" then
      match message.get "data" with
      | none => (s, [], some .keyError)
      | some d => authenticate_client closed s wsId d
    else if t = .str "information" then
      match message.get "data" with
      | none => (s, [], some .keyError)
      | some d => process_information closed s d
    else if t = .str "device_action" then
      match message.get "data" with
      | none => (s, [], some .keyError)
      | some d => forward_device_action closed s d
    else relay_message_to_all_clients closed s message

/-- Events observed by a single-threaded interleaving of the server's
connection handlers. -/
inductive ServerEvent where
  | connect (wsId : Nat)
  | message (wsId : Nat) (payload : JValue)
  | close (wsId : Nat)
deriving DecidableEq, Repr

/-- One step of `websocket_connection_handler`.  A new connection appends a
role-less client.  A received frame is fed to `handle_message`; when any
exception escapes it (the `try` catches only `ConnectionClosed`, and even
that exits the loop), the `finally` block runs — clear the controller
reference if it is this client, then `disconnect_client` — and the session's
read loop ends.  A transport close observed by `recv` runs the same
`finally` block. -/
def serverStep (closed : List Nat) (s : ServerInformation) :
    ServerEvent → ServerInformation × List Sent
  | .connect i =>
    ({ s with connected_clients :=
        s.connected_clients ++ [⟨i, none, JValue.null⟩] }, [])
  | .message i m =>
    let r := handle_message closed s i m
    match r.2.2 with
    | none => (r.1, r.2.1)
    | some _ =>
      let r2 := handler_finally closed r.1 i
      (r2.1, r.2.1 ++ r2.2.1)
  | .close i =>
    let r := handler_finally closed s i
    (r.1, r.2.1)

/-- Run a sequence of events, collecting all sends. -/
def runEvents (closed : List Nat) (s : ServerInformation) :
    List ServerEvent → ServerInformation × List Sent
  | [] => (s, [])
  | e :: rest =>
    let r := serverStep closed s e
    let r2 := runEvents closed r.1 rest
    (r2.1, r.2 ++ r2.2)

/-- Python `path.split("?token=$")`, specialised to the literal separator
used by `QueryParameterProtocol.process_request`: split on every
(non-overlapping, leftmost-first) occurrence of `?token=$`. -/
def tokenSplitAux : List Char → List Char → List (List Char)
  | '?' :: 't' :: 'o' :: 'k' :: 'e' :: 'n' :: '=' :: '$' :: rest, acc =>
    acc.reverse :: tokenSplitAux rest []
  | c :: rest, acc => tokenSplitAux rest (c :: acc)
  | [], acc => [acc.reverse]

/-- The list `path.split("?token=$")` as lists of characters. -/
def tokenSplit (path : String) : List (List Char) :=
  tokenSplitAux path.toList []

/-- Result of `QueryParameterProtocol.process_request`: Python `None`
(accept the handshake) or an HTTP rejection tuple. -/
inductive HandshakeResult where
  | accept
  | reject (status : Nat) (body : String)
deriving DecidableEq, Repr

/-- Mirrors `QueryParameterProtocol.process_request`:
`token = path.split("?token=$")[1]` raises `IndexError` when the separator
does not occur in the path; otherwise a mismatching token is rejected with
`http.HTTPStatus.UNAUTHORIZED` (401) and a matching one lets the
handshake proceed. -/
def process_request (token : String) (path : String) :
    Except PyError HandshakeResult :=
  match (tokenSplit path).get? 1 with
  | none => .error .indexError
  | some t =>
    if t ≠ token.toList then .ok (.reject 401 "Invalid or missing token\n")
    else .ok .accept

/-- The `{"type": "authentication", "data": {"type": role, "name": name}}`
envelope sent by clients when authenticating. -/
def authEnvelope (role nm : String) : JValue :=
  .mkObj [("type", .str "authentication"),
          ("data", .mkObj [("type", .str role), ("name", .str nm)])]

/-- The inner `data` of an information envelope. -/
def infoData (tag : String) (d : JValue) : JValue :=
  .mkObj [("type", .str tag), ("data", d)]

/-- The inner `data` of a `device_action` envelope. -/
def deviceEnvelope (device : String) (d : JValue) : JValue :=
  .mkObj [("device", .str device), ("data", d)]

/-! Helper lemmas about the embedded operations. -/

/-- Removing an id that is not in the registry fails (Python `ValueError`). -/
theorem removeFirstById_eq_none (l : List ConnectedMeffecClient) (i : Nat)
    (h : i ∉ l.map (fun c => c.wsId)) : removeFirstById l i = none := by
  induction l with
  | nil => rfl
  | cons c rest ih =>
    simp only [List.map_cons, List.mem_cons] at h
    push_neg at h
    simp [removeFirstById, Ne.symm h.1, ih h.2]

/-- The roster comprehension succeeds when every client has a role. -/
theorem rosterEntries_isSome (l : List ConnectedMeffecClient)
    (h : ∀ c ∈ l, c.type.isSome) : ∃ es, rosterEntries l = some es := by
  induction l with
  | nil => exact ⟨[], rfl⟩
  | cons c rest ih =>
    obtain ⟨t, ht⟩ := Option.isSome_iff_exists.mp (h c (List.mem_cons_self c rest))
    obtain ⟨es, hes⟩ := ih fun d hd => h d (List.mem_cons_of_mem c hd)
    refine ⟨JValue.mkObj [("type", .str t.value), ("name", c.name)] :: es, ?_⟩
    simp [rosterEntries, ConnectedMeffecClient.get_controller_information, ht, hes]

/-- The roster comprehension raises `AttributeError` as soon as some client
has no assigned role. -/
theorem rosterEntries_eq_none (l : List ConnectedMeffecClient)
    (c : ConnectedMeffecClient) (hc : c ∈ l) (ht : c.type = none) :
    rosterEntries l = none := by
  induction l with
  | nil => cases hc
  | cons d rest ih =>
    rcases List.mem_cons.mp hc with h | h
    · subst h
      simp [rosterEntries, ConnectedMeffecClient.get_controller_information, ht]
    · cases hd : d.get_controller_information with
      | none => simp [rosterEntries, hd]
      | some j => simp [rosterEntries, hd, ih h]

/-- Updating the registry entry for an absent id changes nothing. -/
theorem map_update_eq_self (l : List ConnectedMeffecClient) (i : Nat)
    (f : ConnectedMeffecClient → ConnectedMeffecClient)
    (h : i ∉ l.map (fun c => c.wsId)) :
    (l.map fun c => if c.wsId = i then f c else c) = l := by
  induction l with
  | nil => rfl
  | cons c rest ih =>
    simp only [List.map_cons, List.mem_cons] at h
    push_neg at h
    simp [Ne.symm h.1, ih h.2]

/-- Unfolding of the roster push when a controller reference is set. -/
theorem send_ccc_eq (closed : List Nat) (s : ServerInformation) (k : Nat)
    (h : s.controller_client = some k) :
    send_connected_clients_to_controller closed s =
      match rosterEntries s.connected_clients with
      | none => ([], some .attributeError)
      | some entries =>
        if closed.contains k then ([], some .connectionClosed)
        else ([⟨k, rosterPayload (JValue.mkArr entries)⟩], none) := by
  unfold send_connected_clients_to_controller
  rw [h]

/-- Every message emitted by a roster push is addressed to the session the
controller reference designates. -/
theorem roster_push_dest (closed : List Nat) (s : ServerInformation) (k : Nat)
    (h : s.controller_client = some k) :
    ∀ o ∈ (send_connected_clients_to_controller closed s).1, o.dest = k := by
  intro o ho
  rw [send_ccc_eq closed s k h] at ho
  cases hr : rosterEntries s.connected_clients <;> simp only [hr] at ho
  · simp at ho
  · split at ho
    · simp at ho
    · simp at ho
      rw [ho]

/-! Claim C10: information envelopes whose nested tag is not
`available_effects` are ignored. -/

/-- Claim C10: for every information envelope whose nested `data.type` is
anything other than `"available_effects"`, `process_information` leaves the
stored catalog, the registry and the controller reference unchanged and
sends no message. -/
theorem C10_information_other_tag_noop (closed : List Nat)
    (s : ServerInformation) (msg : JValue) (t : JValue)
    (hget : msg.get "type" = some t) (hne : t ≠ JValue.str "available_effects") :
    process_information closed s msg = (s, [], none) := by
  unfold process_information
  rw [hget]
  simp [hne]

/-- Witness for C10 at a concrete `connected_clients` information message. -/
theorem C10_witness :
    process_information [] initialServerInformation
      (infoData "connected_clients" JValue.arrNil) =
      (initialServerInformation, [], none) :=
  C10_information_other_tag_noop [] initialServerInformation
    (infoData "connected_clients" JValue.arrNil)
    (JValue.str "connected_clients") (by decide) (by decide)

/-! Claim C5: removal of an absent session is not a silent no-op — Python
`list.remove` raises `ValueError`. -/

/-- Counterexample to claim C5: removing a session that is not in the
registry raises `ValueError` instead of being an error-free no-op. -/
theorem C5_counterexample :
    disconnect_client [] initialServerInformation 0 =
      (initialServerInformation, [], some PyError.valueError) := by decide

/-- Claim C5 as amended: removing an absent session leaves the registry
unchanged and performs no roster push, but raises `ValueError` (it is not an
error-free no-op). -/
theorem C5_amended (closed : List Nat) (s : ServerInformation) (i : Nat)
    (h : i ∉ serverIds s) :
    disconnect_client closed s i = (s, [], some PyError.valueError) := by
  unfold disconnect_client
  rw [removeFirstById_eq_none s.connected_clients i h]

/-- Witness for the amended C5. -/
theorem C5_witness :
    disconnect_client [3] ⟨[⟨1, none, JValue.null⟩], JValue.objNil, none⟩ 2 =
      (⟨[⟨1, none, JValue.null⟩], JValue.objNil, none⟩, [],
        some PyError.valueError) :=
  C5_amended [3] ⟨[⟨1, none, JValue.null⟩], JValue.objNil, none⟩ 2 (by decide)

/-! Claim C3: handshake token check. -/

/-- Counterexample to claim C3: a path with no `?token=$` query raises
`IndexError` in `process_request` instead of rejecting the handshake with an
unauthorized HTTP status. -/
theorem C3_counterexample :
    process_request "secret" "/" = Except.error PyError.indexError := rfl

/-- Claim C3 as amended: a present token equal to the secret accepts the
connection; a present token different from the secret is rejected with HTTP
401 Unauthorized; a missing token (`?token=$` absent from the path) raises
`IndexError` inside `process_request` — the handshake fails, but not via an
unauthorized status. -/
theorem C3_amended :
    (∀ token path t, (tokenSplit path).get? 1 = some t →
      (process_request token path = Except.ok HandshakeResult.accept ↔
        t = token.toList) ∧
      (t ≠ token.toList → process_request token path =
        Except.ok (HandshakeResult.reject 401 "Invalid or missing token\n"))) ∧
    (∀ token path, (tokenSplit path).get? 1 = none →
      process_request token path = Except.error PyError.indexError) := by
  constructor
  · intro token path t hget
    constructor
    · unfold process_request
      rw [hget]
      by_cases h : t = token.toList <;> simp [h]
    · intro hne
      unfold process_request
      rw [hget]
      simp [hne]
      exact hne
  · intro token path hget
    unfold process_request
    rw [hget]

/-- Witness for the amended C3, covering the accept, reject and missing-token
cases at concrete paths. -/
theorem C3_witness :
    process_request "secret" "/ws?token=$secret" = Except.ok HandshakeResult.accept ∧
    process_request "secret" "/ws?token=$bad" =
      Except.ok (HandshakeResult.reject 401 "Invalid or missing token\n") ∧
    process_request "secret" "/ws" = Except.error PyError.indexError :=
  ⟨(C3_amended.1 "secret" "/ws?token=$secret" "secret".toList (by decide)).1.mpr
      (by decide),
   (C3_amended.1 "secret" "/ws?token=$bad" "bad".toList (by decide)).2 (by decide),
   C3_amended.2 "secret" "/ws" (by decide)⟩

/-! Claim C6: catalog replacement is wholesale and pushed to all app
sessions. -/

/-- The sends produced by pushing catalog `effects` to every app client of a
registry, in registry order. -/
def appCatalogSends (l : List ConnectedMeffecClient) (effects : JValue) :
    List Sent :=
  (l.filter fun c => c.type == some MeffecClientType.APP).map
    fun c => ⟨c.wsId, effectsPayload effects⟩

/-- The app-push loop sends the stored catalog to exactly the app-role
clients, in order, when none of their transports is closed. -/
theorem sendEffectsLoop_ok (closed : List Nat) (s : ServerInformation)
    (l : List ConnectedMeffecClient)
    (h : ∀ c ∈ l, c.type = some MeffecClientType.APP →
      closed.contains c.wsId = false) :
    sendEffectsLoop closed s l = (appCatalogSends l s.available_effects, none) := by
  induction l with
  | nil => rfl
  | cons c rest ih =>
    have ihr := ih fun d hd => h d (List.mem_cons_of_mem c hd)
    by_cases hc : c.type = some MeffecClientType.APP
    · have hm : c.wsId ∉ closed := by
        simpa using h c (List.mem_cons_self c rest) hc
      simp [sendEffectsLoop, appCatalogSends, hc, send_effects_to_app_client,
        hm, ihr]
    · simp [sendEffectsLoop, appCatalogSends, hc, ihr]

/-- Unfolding of `process_information` on an `available_effects` envelope. -/
theorem process_information_effects (closed : List Nat)
    (s : ServerInformation) (cat : JValue) :
    process_information closed s (infoData "available_effects" cat) =
      ({ s with available_effects := cat },
       (sendEffectsLoop closed { s with available_effects := cat }
          s.connected_clients).1,
       (sendEffectsLoop closed { s with available_effects := cat }
          s.connected_clients).2) := by
  unfold process_information infoData
  simp [JValue.mkObj, JValue.get, send_effects_to_all_connected_app_clients]

/-- Claim C6: handling `available_effects` envelopes carrying catalogs `c1`
then `c2` replaces the stored catalog wholesale each time (the stored value
is exactly the received catalog, never a merge), leaves the registry and the
controller reference unchanged, and after each replacement sends the new
catalog to every app-role session in the registry (their transports being
open). -/
theorem C6_catalog_replacement (closed : List Nat) (s : ServerInformation)
    (c1 c2 : JValue)
    (h : ∀ c ∈ s.connected_clients, c.type = some MeffecClientType.APP →
      closed.contains c.wsId = false) :
    (process_information closed s (infoData "available_effects" c1)).1 =
      { s with available_effects := c1 } ∧
    (process_information closed s (infoData "available_effects" c1)).2 =
      (appCatalogSends s.connected_clients c1, none) ∧
    (process_information closed
        (process_information closed s (infoData "available_effects" c1)).1
        (infoData "available_effects" c2)).1 =
      { s with available_effects := c2 } ∧
    (process_information closed
        (process_information closed s (infoData "available_effects" c1)).1
        (infoData "available_effects" c2)).2 =
      (appCatalogSends s.connected_clients c2, none) := by
  have h1 := process_information_effects closed s c1
  have e1 : (process_information closed s (infoData "available_effects" c1)).1 =
      { s with available_effects := c1 } := by rw [h1]
  have l1 := sendEffectsLoop_ok closed { s with available_effects := c1 }
    s.connected_clients h
  have h2 := process_information_effects closed
    { s with available_effects := c1 } c2
  have l2 := sendEffectsLoop_ok closed
    { { s with available_effects := c1 } with available_effects := c2 }
    s.connected_clients h
  refine ⟨e1, ?_, ?_, ?_⟩
  · rw [h1]
    simp only [l1]
  · rw [e1, h2]
  · rw [e1, h2]
    simp only [l2]

/-- Witness for C6: one app client and one device client, catalogs `"C1"`
then `"C2"`; the stored catalog is exactly the last received one and only the
app client is sent each catalog. -/
theorem C6_witness :
    (process_information []
        ⟨[⟨0, some .APP, JValue.null⟩, ⟨1, some .DEVICE, JValue.null⟩],
          JValue.objNil, none⟩
        (infoData "available_effects" (JValue.str "C1"))).1 =
      ⟨[⟨0, some .APP, JValue.null⟩, ⟨1, some .DEVICE, JValue.null⟩],
        JValue.str "C1", none⟩ ∧
    (process_information []
        ⟨[⟨0, some .APP, JValue.null⟩, ⟨1, some .DEVICE, JValue.null⟩],
          JValue.objNil, none⟩
        (infoData "available_effects" (JValue.str "C1"))).2 =
      ([⟨0, effectsPayload (JValue.str "C1")⟩], none) := by
  have h := C6_catalog_replacement []
    ⟨[⟨0, some .APP, JValue.null⟩, ⟨1, some .DEVICE, JValue.null⟩],
      JValue.objNil, none⟩
    (JValue.str "C1") (JValue.str "C2") (by decide)
  exact ⟨h.1, by rw [h.2.1]; decide⟩

/-! Claim C7: device actions are broadcast by role, with the inner data
unmodified and the device name ignored. -/

/-- The sends produced by forwarding payload `d` to every device client. -/
def deviceSends (l : List ConnectedMeffecClient) (d : JValue) : List Sent :=
  (l.filter fun c => c.type == some MeffecClientType.DEVICE).map
    fun c => ⟨c.wsId, deviceActionPayload d⟩

/-- The forwarding loop sends the retagged payload to exactly the
device-role clients when none of their transports is closed. -/
theorem forwardLoop_ok (closed : List Nat) (da D : JValue)
    (l : List ConnectedMeffecClient) (hd : da.get "data" = some D)
    (h : ∀ c ∈ l, c.type = some MeffecClientType.DEVICE →
      closed.contains c.wsId = false) :
    forwardLoop closed da l = (deviceSends l D, none) := by
  induction l with
  | nil => rfl
  | cons c rest ih =>
    have ihr := ih fun d hdm => h d (List.mem_cons_of_mem c hdm)
    by_cases hc : c.type = some MeffecClientType.DEVICE
    · have hm : c.wsId ∉ closed := by
        simpa using h c (List.mem_cons_self c rest) hc
      simp [forwardLoop, deviceSends, hc, hd, hm, ihr]
    · simp [forwardLoop, deviceSends, hc, ihr]

/-- Claim C7: a `device_action` envelope with fields `device = X` and
`data = D` is forwarded — as an envelope of type `device_action` whose `data`
equals `D` unmodified and which carries no `device` field — to exactly the
device-role sessions of the registry (their transports being open),
regardless of any session's name, and the server state is unchanged. -/
theorem C7_device_broadcast (closed : List Nat) (s : ServerInformation)
    (X : String) (D : JValue)
    (h : ∀ c ∈ s.connected_clients, c.type = some MeffecClientType.DEVICE →
      closed.contains c.wsId = false) :
    forward_device_action closed s (deviceEnvelope X D) =
      (s, deviceSends s.connected_clients D, none) ∧
    (deviceActionPayload D).get "device" = none := by
  constructor
  · unfold forward_device_action deviceEnvelope
    have hd : (JValue.mkObj [("device", .str X), ("data", D)]).get "data" =
        some D := by simp [JValue.mkObj, JValue.get]
    have hdev : (JValue.mkObj [("device", .str X), ("data", D)]).get "device" =
        some (.str X) := by simp [JValue.mkObj, JValue.get]
    rw [forwardLoop_ok closed _ D s.connected_clients hd h]
    simp [JValue.mkObj, JValue.get]
  · simp [deviceActionPayload, JValue.mkObj, JValue.get]

/-- Witness for C7: a device named `"Y"`, an app, and a role-less session;
the action targeted at `"X"` reaches exactly the device session. -/
theorem C7_witness :
    forward_device_action []
      ⟨[⟨0, some .DEVICE, JValue.str "Y"⟩, ⟨1, some .APP, JValue.null⟩,
        ⟨2, none, JValue.null⟩], JValue.objNil, none⟩
      (deviceEnvelope "X" (JValue.str "payload")) =
      (⟨[⟨0, some .DEVICE, JValue.str "Y"⟩, ⟨1, some .APP, JValue.null⟩,
        ⟨2, none, JValue.null⟩], JValue.objNil, none⟩,
       [⟨0, deviceActionPayload (JValue.str "payload")⟩], none) := by
  have h := C7_device_broadcast []
    ⟨[⟨0, some .DEVICE, JValue.str "Y"⟩, ⟨1, some .APP, JValue.null⟩,
      ⟨2, none, JValue.null⟩], JValue.objNil, none⟩
    "X" (JValue.str "payload") (by decide)
  rw [h.1]
  decide

/-! Claim C2: clearing of the controller reference on the removal paths. -/

/-- The heartbeat pass never writes the controller reference, whatever it
removes. -/
theorem heartbeatScan_controller (closed : List Nat) (E : JValue)
    (ct : Option Nat) :
    ∀ n rest kept, rest.length ≤ n →
      (heartbeatScan closed E ct kept rest).1.controller_client = ct := by
  intro n
  induction n with
  | zero =>
    intro rest kept h
    have hn : rest = [] := List.eq_nil_of_length_eq_zero (Nat.le_zero.mp h)
    subst hn
    rfl
  | succ n ih =>
    intro rest kept h
    match rest with
    | [] => rfl
    | c :: rest1 =>
      simp only [heartbeatScan]
      by_cases hc : closed.contains c.wsId = true
      · rw [if_pos hc]
        rcases he : (send_connected_clients_to_controller closed
            ⟨kept ++ rest1, E, ct⟩).2 with _ | e
        · match rest1, h with
          | [], _ => rfl
          | d :: rest2, h =>
            exact ih rest2 (kept ++ [d]) (by simp at h; omega)
        · rfl
      · rw [if_neg hc]
        exact ih rest1 (kept ++ [c]) (by simp at h; omega)

/-- Counterexample to claim C2: one heartbeat tick against a registry whose
only session is the controller, with its transport closed.  The controller is
removed from the registry, yet the controller reference still points at it
when the roster push inside `disconnect_client` runs (the push then fails and
kills the heartbeat task): the reference is neither `None` nor a live
registered session. -/
theorem C2_counterexample :
    (send_heartbeat_to_all_clients_tick [0]
        ⟨[⟨0, some .CONTROLLER, JValue.str "c"⟩], JValue.objNil, some 0⟩).1 =
      ⟨[], JValue.objNil, some 0⟩ ∧
    (send_heartbeat_to_all_clients_tick [0]
        ⟨[⟨0, some .CONTROLLER, JValue.str "c"⟩], JValue.objNil, some 0⟩).2.2 =
      some PyError.connectionClosed := by decide

/-- Claim C2 as amended: only the read-loop close path (the handler's
`finally` block) clears the controller reference before its roster push; the
relay-failure and heartbeat-failure removal paths never write the controller
reference, so after they remove the controller session the reference still
points at it. -/
theorem C2_amended :
    (∀ (closed : List Nat) (s : ServerInformation) (i : Nat),
      s.controller_client = some i →
      ((handler_finally closed s i).1).controller_client = none) ∧
    (∀ (closed : List Nat) (s : ServerInformation) (m : JValue),
      ((relay_message_to_all_clients closed s m).1).controller_client =
        s.controller_client) ∧
    (∀ (closed : List Nat) (s : ServerInformation),
      ((send_heartbeat_to_all_clients_tick closed s).1).controller_client =
        s.controller_client) := by
  refine ⟨?_, ?_, ?_⟩
  · intro closed s i h
    unfold handler_finally
    rw [if_pos h]
    unfold disconnect_client
    cases hr : removeFirstById s.connected_clients i <;> simp [hr]
  · intro closed s m
    rfl
  · intro closed s
    exact heartbeatScan_controller closed s.available_effects
      s.controller_client s.connected_clients.length s.connected_clients []
      le_rfl

/-- Witness for the amended C2 at concrete states. -/
theorem C2_witness :
    ((handler_finally [] ⟨[⟨0, some .CONTROLLER, JValue.null⟩], JValue.objNil,
        some 0⟩ 0).1).controller_client = none ∧
    ((relay_message_to_all_clients [1] ⟨[⟨1, some .APP, JValue.null⟩],
        JValue.objNil, some 1⟩ JValue.null).1).controller_client = some 1 ∧
    ((send_heartbeat_to_all_clients_tick [2] ⟨[⟨2, some .CONTROLLER,
        JValue.null⟩], JValue.objNil, some 2⟩).1).controller_client = some 2 :=
  ⟨C2_amended.1 [] ⟨[⟨0, some .CONTROLLER, JValue.null⟩], JValue.objNil,
      some 0⟩ 0 rfl,
   C2_amended.2.1 [1] ⟨[⟨1, some .APP, JValue.null⟩], JValue.objNil, some 1⟩
      JValue.null,
   C2_amended.2.2 [2] ⟨[⟨2, some .CONTROLLER, JValue.null⟩], JValue.objNil,
      some 2⟩⟩

/-! Claim C8: handling of sends to closed transports. -/

/-- The device-forward loop propagates `ConnectionClosed` as soon as some
device-role client's transport is closed. -/
theorem forwardLoop_err (closed : List Nat) (da D : JValue)
    (l : List ConnectedMeffecClient) (hd : da.get "data" = some D)
    (h : ∃ c ∈ l, c.type = some MeffecClientType.DEVICE ∧
      closed.contains c.wsId = true) :
    (forwardLoop closed da l).2 = some PyError.connectionClosed := by
  induction l with
  | nil => simp at h
  | cons c rest ih =>
    obtain ⟨d, hdm, hdev, hcl⟩ := h
    rcases List.mem_cons.mp hdm with heq | hmem
    · subst heq
      have hm : d.wsId ∈ closed := by simpa using hcl
      simp [forwardLoop, hdev, hd, hm]
    · by_cases hc : c.type = some MeffecClientType.DEVICE
      · by_cases hcc : c.wsId ∈ closed
        · simp [forwardLoop, hc, hd, hcc]
        · simp [forwardLoop, hc, hd, hcc]
          exact ih ⟨d, hmem, hdev, hcl⟩
      · simp only [forwardLoop, hc, if_false]
        exact ih ⟨d, hmem, hdev, hcl⟩

/-- Counterexample to claim C8: forwarding a device action to a device whose
transport has closed does not catch the failure — the session stays in the
registry, no roster push happens, and `ConnectionClosed` propagates to the
caller. -/
theorem C8_counterexample :
    forward_device_action [0]
        ⟨[⟨0, some .DEVICE, JValue.null⟩], JValue.objNil, none⟩
        (deviceEnvelope "X" JValue.null) =
      (⟨[⟨0, some .DEVICE, JValue.null⟩], JValue.objNil, none⟩, [],
        some PyError.connectionClosed) := by decide

/-- Claim C8 as amended: send failures are caught only on the relay-broadcast
and heartbeat paths.  The relay broadcast never raises and removes a failed
session without any roster push; the heartbeat path removes it via
`disconnect_client`, which does push the roster.  Targeted sends — here the
device-action forward — propagate `ConnectionClosed` to the caller and leave
the registry unchanged. -/
theorem C8_amended :
    (∀ (closed : List Nat) (s : ServerInformation) (m : JValue),
      (relay_message_to_all_clients closed s m).2.2 = none) ∧
    (∀ (closed : List Nat) (s : ServerInformation) (X : String) (D : JValue),
      (∃ c ∈ s.connected_clients, c.type = some MeffecClientType.DEVICE ∧
        closed.contains c.wsId = true) →
      (forward_device_action closed s (deviceEnvelope X D)).2.2 =
        some PyError.connectionClosed ∧
      (forward_device_action closed s (deviceEnvelope X D)).1 = s) ∧
    (∀ (closed : List Nat) (s : ServerInformation) (m : JValue)
        (c : ConnectedMeffecClient),
      s.connected_clients = [c] → closed.contains c.wsId = true →
      relay_message_to_all_clients closed s m =
        ({ s with connected_clients := [] }, [], none)) ∧
    (∀ (closed : List Nat) (s : ServerInformation)
        (c : ConnectedMeffecClient),
      s.connected_clients = [c] → s.controller_client = none →
      closed.contains c.wsId = true →
      send_heartbeat_to_all_clients_tick closed s =
        (⟨[], s.available_effects, none⟩, [], none)) := by
  refine ⟨?_, ?_, ?_, ?_⟩
  · intro closed s m
    rfl
  · intro closed s X D h
    have hd : (deviceEnvelope X D).get "data" = some D := by
      simp [deviceEnvelope, JValue.mkObj, JValue.get]
    constructor
    · unfold forward_device_action
      rw [show (deviceEnvelope X D).get "device" = some (.str X) by
        simp [deviceEnvelope, JValue.mkObj, JValue.get]]
      exact forwardLoop_err closed (deviceEnvelope X D) D
        s.connected_clients hd h
    · unfold forward_device_action
      cases (deviceEnvelope X D).get "device" <;> rfl
  · intro closed s m c hs hc
    have hm : c.wsId ∈ closed := by simpa using hc
    unfold relay_message_to_all_clients
    rw [hs]
    simp [relayScan, hm]
  · intro closed s c hs hctrl hc
    have hm : c.wsId ∈ closed := by simpa using hc
    unfold send_heartbeat_to_all_clients_tick
    rw [hs, hctrl]
    simp [heartbeatScan, hm, send_connected_clients_to_controller]

/-- Witness for the amended C8 at concrete states. -/
theorem C8_witness :
    (relay_message_to_all_clients [] initialServerInformation
        JValue.null).2.2 = none ∧
    (forward_device_action [7]
        ⟨[⟨7, some .DEVICE, JValue.null⟩], JValue.objNil, none⟩
        (deviceEnvelope "X" JValue.arrNil)).2.2 =
      some PyError.connectionClosed ∧
    relay_message_to_all_clients [4]
        ⟨[⟨4, some .APP, JValue.null⟩], JValue.objNil, none⟩ JValue.null =
      (⟨[], JValue.objNil, none⟩, [], none) ∧
    send_heartbeat_to_all_clients_tick [9]
        ⟨[⟨9, some .DEVICE, JValue.null⟩], JValue.str "E", none⟩ =
      (⟨[], JValue.str "E", none⟩, [], none) :=
  ⟨C8_amended.1 [] initialServerInformation JValue.null,
   (C8_amended.2.1 [7] ⟨[⟨7, some .DEVICE, JValue.null⟩], JValue.objNil, none⟩
      "X" JValue.arrNil ⟨⟨7, some .DEVICE, JValue.null⟩, by simp, rfl,
        by decide⟩).1,
   C8_amended.2.2.1 [4] ⟨[⟨4, some .APP, JValue.null⟩], JValue.objNil, none⟩
      JValue.null ⟨4, some .APP, JValue.null⟩ rfl (by decide),
   C8_amended.2.2.2 [9] ⟨[⟨9, some .DEVICE, JValue.null⟩], JValue.str "E",
      none⟩ ⟨9, some .DEVICE, JValue.null⟩ rfl rfl (by decide)⟩

/-! Claim C9: dead-peer eviction by the heartbeat monitor. -/


def noConsecutiveClosed (closed : List Nat) :
    List ConnectedMeffecClient → Bool
  | c :: d :: rest =>
    !(closed.contains c.wsId && closed.contains d.wsId) &&
      noConsecutiveClosed closed (d :: rest)
  | _ => true

theorem noConsecutiveClosed_tail (closed : List Nat)
    (c : ConnectedMeffecClient) (l : List ConnectedMeffecClient)
    (h : noConsecutiveClosed closed (c :: l) = true) :
    noConsecutiveClosed closed l = true := by
  match l with
  | [] => rfl
  | d :: rest =>
    simp only [noConsecutiveClosed, Bool.and_eq_true] at h
    exact h.2

theorem heartbeatScan_none_cons_dead (closed : List Nat) (E : JValue)
    (kept : List ConnectedMeffecClient) (c : ConnectedMeffecClient)
    (rest : List ConnectedMeffecClient)
    (hc : closed.contains c.wsId = true) :
    heartbeatScan closed E none kept (c :: rest) =
      match rest with
      | [] => (⟨kept, E, none⟩, [], none)
      | d :: rest2 => heartbeatScan closed E none (kept ++ [d]) rest2 := by
  have hm : c.wsId ∈ closed := by simpa using hc
  match rest with
  | [] => simp [heartbeatScan, hm, send_connected_clients_to_controller]
  | d :: rest2 => simp [heartbeatScan, hm, send_connected_clients_to_controller]

theorem heartbeatScan_none_cons_alive (closed : List Nat) (E : JValue)
    (kept : List ConnectedMeffecClient) (c : ConnectedMeffecClient)
    (rest : List ConnectedMeffecClient)
    (hc : closed.contains c.wsId = false) :
    heartbeatScan closed E none kept (c :: rest) =
      ((heartbeatScan closed E none (kept ++ [c]) rest).1,
       ⟨c.wsId, heartbeatPayload⟩ ::
         (heartbeatScan closed E none (kept ++ [c]) rest).2.1,
       (heartbeatScan closed E none (kept ++ [c]) rest).2.2) := by
  have hm : c.wsId ∉ closed := by simpa using hc
  simp [heartbeatScan, hm]

theorem heartbeatScan_no_adjacent (closed : List Nat) (E : JValue) :
    ∀ n rest kept, rest.length ≤ n →
      noConsecutiveClosed closed rest = true →
      (heartbeatScan closed E none kept rest).1 =
        ⟨kept ++ rest.filter (fun c => !closed.contains c.wsId), E, none⟩ ∧
      (heartbeatScan closed E none kept rest).2.2 = none := by
  intro n
  induction n with
  | zero =>
    intro rest kept h hnc
    have hn : rest = [] := List.eq_nil_of_length_eq_zero (Nat.le_zero.mp h)
    subst hn
    simp [heartbeatScan]
  | succ n ih =>
    intro rest kept h hnc
    match rest with
    | [] => simp [heartbeatScan]
    | c :: rest1 =>
      by_cases hc : closed.contains c.wsId = true
      · rw [heartbeatScan_none_cons_dead closed E kept c rest1 hc]
        have hm : c.wsId ∈ closed := by simpa using hc
        match rest1 with
        | [] => simp [hm]
        | d :: rest2 =>
          have hd : closed.contains d.wsId = false := by
            simp only [noConsecutiveClosed, hc, Bool.true_and,
              Bool.and_eq_true, Bool.not_eq_true'] at hnc
            exact hnc.1
          have hrec := ih rest2 (kept ++ [d]) (by simp at h; omega)
            (noConsecutiveClosed_tail closed d rest2
              (noConsecutiveClosed_tail closed c (d :: rest2) hnc))
          have hmd : d.wsId ∉ closed := by simpa using hd
          refine ⟨?_, hrec.2⟩
          rw [hrec.1]
          simp [hm, hmd, List.append_assoc]
      · have hcf : closed.contains c.wsId = false := by
          simpa using hc
        rw [heartbeatScan_none_cons_alive closed E kept c rest1 hcf]
        have hrec := ih rest1 (kept ++ [c]) (by simp at h; omega)
          (noConsecutiveClosed_tail closed c rest1 hnc)
        have hm : c.wsId ∉ closed := by simpa using hcf
        refine ⟨?_, hrec.2⟩
        rw [hrec.1]
        simp [hm, List.append_assoc]

/-- Counterexample to claim C9: two adjacent dead sessions, one tick.  The
removal of session 0 shifts session 1 into the current index, so the loop
skips it: a silently dead session is still in the registry one full heartbeat
interval after its transport died. -/
theorem C9_counterexample :
    (send_heartbeat_to_all_clients_tick [0, 1]
        ⟨[⟨0, none, JValue.null⟩, ⟨1, none, JValue.null⟩], JValue.objNil,
          none⟩).1.connected_clients = [⟨1, none, JValue.null⟩] := by decide

/-- Claim C9 as amended: the heartbeat tick iterates the live registry (no
snapshot); a failed send removes the session via `disconnect_client`, and the
session that shifts into the removed slot is skipped for that tick.  When no
two consecutive registry entries are both dead (and no controller reference
is set, so the roster pushes are no-ops), one tick removes exactly the dead
sessions; a dead session immediately following another dead session survives
into the next tick. -/
theorem C9_amended (closed : List Nat) (s : ServerInformation)
    (hctrl : s.controller_client = none)
    (hnc : noConsecutiveClosed closed s.connected_clients = true) :
    (send_heartbeat_to_all_clients_tick closed s).1 =
      ⟨s.connected_clients.filter (fun c => !closed.contains c.wsId),
        s.available_effects, none⟩ ∧
    (send_heartbeat_to_all_clients_tick closed s).2.2 = none := by
  unfold send_heartbeat_to_all_clients_tick
  rw [hctrl]
  have h := heartbeatScan_no_adjacent closed s.available_effects
    s.connected_clients.length s.connected_clients [] le_rfl hnc
  simpa using h

/-- Witness for the amended C9: sessions 0 and 2 alive, session 1 dead; the
tick evicts exactly session 1. -/
theorem C9_witness :
    (send_heartbeat_to_all_clients_tick [1]
        ⟨[⟨0, some .APP, JValue.null⟩, ⟨1, some .DEVICE, JValue.null⟩,
          ⟨2, some .APP, JValue.null⟩], JValue.objNil, none⟩).1 =
      ⟨[⟨0, some .APP, JValue.null⟩, ⟨2, some .APP, JValue.null⟩],
        JValue.objNil, none⟩ := by
  have h := C9_amended [1]
    ⟨[⟨0, some .APP, JValue.null⟩, ⟨1, some .DEVICE, JValue.null⟩,
      ⟨2, some .APP, JValue.null⟩], JValue.objNil, none⟩ rfl (by decide)
  rw [h.1]
  decide

/-! Claim C4: authentication with an unrecognized role name. -/

/-- The inner `data` of an authentication envelope. -/
def authData (role nm : String) : JValue :=
  .mkObj [("type", .str role), ("name", .str nm)]

/-- Composing the two in-place field updates of `authenticate_client`. -/
theorem map_update_twice (l : List ConnectedMeffecClient) (i : Nat)
    (t : Option MeffecClientType) (nm : JValue) :
    ((l.map fun c => if c.wsId = i then { c with type := t } else c).map
      fun c => if c.wsId = i then { c with name := nm } else c) =
    l.map fun c => if c.wsId = i then { c with type := t, name := nm }
      else c := by
  induction l with
  | nil => rfl
  | cons c rest ih =>
    by_cases hc : c.wsId = i <;> simp [hc, ih]

/-- The registry ids are untouched by the in-place field update. -/
theorem ids_map_update (l : List ConnectedMeffecClient) (i : Nat)
    (t : Option MeffecClientType) (nm : JValue) :
    (l.map fun c => if c.wsId = i then { c with type := t, name := nm }
      else c).map (fun c => c.wsId) = l.map (fun c => c.wsId) := by
  induction l with
  | nil => rfl
  | cons c rest ih =>
    by_cases hc : c.wsId = i <;> simp [hc, ih]

/-- Unfolding of `authenticate_client` on an unrecognized role name: the
client's `type` is set to Python `None`, its name is recorded, the
controller reference and catalog sends are skipped, and the trailing roster
push is the only effect left. -/
theorem authenticate_unknown_eq (closed : List Nat) (s : ServerInformation)
    (i : Nat) (role nm : String)
    (hrole : MeffecClientType.get_client_type role = none) :
    authenticate_client closed s i (authData role nm) =
      ({ s with connected_clients := s.connected_clients.map fun c =>
          if c.wsId = i then { c with type := none, name := JValue.str nm }
          else c },
       (send_connected_clients_to_controller closed
         { s with connected_clients := s.connected_clients.map fun c =>
             if c.wsId = i then { c with type := none, name := JValue.str nm }
             else c }).1,
       (send_connected_clients_to_controller closed
         { s with connected_clients := s.connected_clients.map fun c =>
             if c.wsId = i then { c with type := none, name := JValue.str nm }
             else c }).2) := by
  unfold authenticate_client
  simp only [authData, JValue.mkObj, List.foldr, JValue.get]
  simp only [show ("type" = "type") = True by simp, if_true,
    show ("name" = "type") = False by simp, if_false,
    show ("name" = "name") = True by simp]
  rw [hrole]
  simp only [map_update_twice]
  simp

/-- Counterexample to claim C4: an authentication envelope with unknown role
`"banana"`, handled while a controller session exists, raises
`AttributeError` during the roster push (the freshly role-less session's
`type.value` is `None.value`), so handling is not error-free. -/
theorem C4_counterexample :
    (authenticate_client []
        ⟨[⟨0, some .CONTROLLER, JValue.str "c"⟩, ⟨1, none, JValue.null⟩],
          JValue.objNil, some 0⟩ 1 (authData "banana" "n")).2.2 =
      some PyError.attributeError := by decide

/-- Claim C4 as amended: an authentication envelope with an unrecognized role
assigns no recognized role (the session's `type` becomes Python `None`), does
not set the controller reference, and keeps the same registry ids.  When no
controller reference is set, the trailing roster push is skipped and no error
is raised.  But when a controller reference is set and the authenticating
session is registered, the roster push raises `AttributeError` (it reads
`type.value` of the role-less session), which then ends that session's read
loop. -/
theorem C4_amended (closed : List Nat) (s : ServerInformation) (i : Nat)
    (role nm : String)
    (hrole : MeffecClientType.get_client_type role = none) :
    ((authenticate_client closed s i (authData role nm)).1).controller_client =
      s.controller_client ∧
    serverIds (authenticate_client closed s i (authData role nm)).1 =
      serverIds s ∧
    (∀ c ∈ ((authenticate_client closed s i
        (authData role nm)).1).connected_clients,
      c.wsId = i → c.type = none) ∧
    (s.controller_client = none →
      (authenticate_client closed s i (authData role nm)).2.1 = [] ∧
      (authenticate_client closed s i (authData role nm)).2.2 = none) ∧
    (∀ k, s.controller_client = some k → i ∈ serverIds s →
      (authenticate_client closed s i (authData role nm)).2.2 =
        some PyError.attributeError) := by
  rw [authenticate_unknown_eq closed s i role nm hrole]
  refine ⟨rfl, ?_, ?_, ?_, ?_⟩
  · exact ids_map_update s.connected_clients i none (JValue.str nm)
  · intro c hc hw
    simp only [List.mem_map] at hc
    obtain ⟨d, hd, hde⟩ := hc
    by_cases hdi : d.wsId = i
    · rw [← hde]
      simp [hdi]
    · rw [← hde] at hw
      simp [hdi] at hw
  · intro hctrl
    constructor <;>
      simp [send_connected_clients_to_controller, hctrl]
  · intro k hctrl hids
    have hex : ∃ d ∈ s.connected_clients, d.wsId = i := by
      simpa [serverIds, List.mem_map] using hids
    obtain ⟨d, hd, hdi⟩ := hex
    have hmem : ({ d with type := none, name := JValue.str nm } :
        ConnectedMeffecClient) ∈
        s.connected_clients.map fun c =>
          if c.wsId = i then { c with type := none, name := JValue.str nm }
          else c := by
      refine List.mem_map.mpr ⟨d, hd, ?_⟩
      simp [hdi]
    have hnone := rosterEntries_eq_none _ _ hmem rfl
    simp [send_connected_clients_to_controller, hctrl, hnone]

/-- Witness for the amended C4: unknown role `"ghost"` with a controller
present; the controller reference is unchanged and the roster push raises
`AttributeError`. -/
theorem C4_witness :
    ((authenticate_client []
        ⟨[⟨0, some .CONTROLLER, JValue.null⟩, ⟨1, none, JValue.null⟩],
          JValue.objNil, some 0⟩ 1 (authData "ghost" "g")).1).controller_client =
      some 0 ∧
    (authenticate_client []
        ⟨[⟨0, some .CONTROLLER, JValue.null⟩, ⟨1, none, JValue.null⟩],
          JValue.objNil, some 0⟩ 1 (authData "ghost" "g")).2.2 =
      some PyError.attributeError := by
  have h := C4_amended []
    ⟨[⟨0, some .CONTROLLER, JValue.null⟩, ⟨1, none, JValue.null⟩],
      JValue.objNil, some 0⟩ 1 "ghost" "g" (by decide)
  exact ⟨h.1, h.2.2.2.2 0 rfl (by decide)⟩

/-! Claim C1: most recently authenticated controller wins. -/


/-- The composition of the two in-place updates of `authenticate_client`
fixes every registry entry whose id differs from the target. -/
theorem map_update_comp_eq_self (l : List ConnectedMeffecClient) (i : Nat)
    (t : Option MeffecClientType) (nm : JValue)
    (hi : i ∉ l.map (fun c => c.wsId)) :
    l.map ((fun c => if c.wsId = i then { c with name := nm } else c) ∘
      (fun c => if c.wsId = i then { c with type := t } else c)) = l := by
  induction l with
  | nil => rfl
  | cons c rest ih =>
    simp only [List.map_cons, List.mem_cons] at hi
    push_neg at hi
    simp [Function.comp, Ne.symm hi.1, ih hi.2]

/-- One read-loop step of a freshly connected session authenticating with
role `controller`: its registry entry gains the role and name, the controller
reference is overwritten with this session, and the only send is the roster
push to this session. -/
theorem handle_auth_controller (closed : List Nat) (E : JValue)
    (ct : Option Nat) (l : List ConnectedMeffecClient) (i : Nat) (nm : String)
    (hi : i ∉ l.map (fun c => c.wsId)) (hall : ∀ c ∈ l, c.type.isSome)
    (hc : closed.contains i = false) :
    ∃ out : List Sent,
      handle_message closed ⟨l ++ [⟨i, none, JValue.null⟩], E, ct⟩ i
          (authEnvelope "controller" nm) =
        (⟨l ++ [⟨i, some .CONTROLLER, JValue.str nm⟩], E, some i⟩, out,
          none) ∧
      ∀ o ∈ out, o.dest = i := by
  have hall2 : ∀ c ∈ l ++
      [(⟨i, some .CONTROLLER, JValue.str nm⟩ : ConnectedMeffecClient)],
      c.type.isSome := by
    intro c hcm
    rcases List.mem_append.mp hcm with h | h
    · exact hall c h
    · simp at h
      subst h
      rfl
  obtain ⟨es, hes⟩ := rosterEntries_isSome _ hall2
  have hm : i ∉ closed := by simpa using hc
  refine ⟨[⟨i, rosterPayload (JValue.mkArr es)⟩], ?_, by simp⟩
  have m3 := map_update_comp_eq_self l i (some .CONTROLLER)
    (JValue.str nm) hi
  unfold handle_message authenticate_client
  simp [authEnvelope, JValue.mkObj, JValue.get,
    MeffecClientType.get_client_type, MeffecClientType.value, m3,
    send_connected_clients_to_controller, hes, hm]

/-- Counterexample to claim C1: sessions 0 (A) and 1 (B) both connect, then A
authenticates as controller, then B does.  A's roster push hits the still
role-less session B, raises `AttributeError`, and A's read loop ends — its
`finally` removes A.  After B's message is handled the controller reference
is B and roster pushes go to B, but A is no longer in the registry. -/
theorem C1_counterexample :
    ((runEvents [] initialServerInformation
        [.connect 0, .connect 1,
         .message 0 (authEnvelope "controller" "A"),
         .message 1 (authEnvelope "controller" "B")]).1).controller_client =
      some 1 ∧
    serverIds (runEvents [] initialServerInformation
        [.connect 0, .connect 1,
         .message 0 (authEnvelope "controller" "A"),
         .message 1 (authEnvelope "controller" "B")]).1 = [1] := by decide

/-- Claim C1 as amended: starting from a registry in which every session has
an authenticated role, if A connects and authenticates as controller and then
B connects and authenticates as controller (fresh distinct handles, open
transports), the controller reference equals B, A remains in the registry,
and every roster push issued while the reference is B is addressed to B —
never to A. -/
theorem C1_amended (closed : List Nat) (s : ServerInformation) (a b : Nat)
    (nA nB : String) (hab : a ≠ b)
    (ha : a ∉ serverIds s) (hb : b ∉ serverIds s)
    (hca : closed.contains a = false) (hcb : closed.contains b = false)
    (htyped : ∀ c ∈ s.connected_clients, c.type.isSome) :
    ((runEvents closed s
        [.connect a, .message a (authEnvelope "controller" nA),
         .connect b, .message b (authEnvelope "controller" nB)]).1).controller_client =
      some b ∧
    a ∈ serverIds (runEvents closed s
        [.connect a, .message a (authEnvelope "controller" nA),
         .connect b, .message b (authEnvelope "controller" nB)]).1 ∧
    ∀ o ∈ (send_connected_clients_to_controller closed
        (runEvents closed s
          [.connect a, .message a (authEnvelope "controller" nA),
           .connect b, .message b (authEnvelope "controller" nB)]).1).1,
      o.dest = b ∧ o.dest ≠ a := by
  obtain ⟨out1, he1, _⟩ := handle_auth_controller closed s.available_effects
    s.controller_client s.connected_clients a nA ha htyped hca
  have htyped2 : ∀ c ∈ s.connected_clients ++
      [(⟨a, some .CONTROLLER, JValue.str nA⟩ : ConnectedMeffecClient)],
      c.type.isSome := by
    intro c hcm
    rcases List.mem_append.mp hcm with h | h
    · exact htyped c h
    · simp at h
      subst h
      rfl
  have hb2 : b ∉ (s.connected_clients ++
      [(⟨a, some .CONTROLLER, JValue.str nA⟩ : ConnectedMeffecClient)]).map
      (fun c => c.wsId) := by
    simp only [List.map_append, List.mem_append]
    push_neg
    refine ⟨hb, ?_⟩
    simp [Ne.symm hab]
  obtain ⟨out2, he2, _⟩ := handle_auth_controller closed s.available_effects
    (some a)
    (s.connected_clients ++ [⟨a, some .CONTROLLER, JValue.str nA⟩]) b nB
    hb2 htyped2 hcb
  have st1 : serverStep closed s (.connect a) =
      ({ s with connected_clients :=
          s.connected_clients ++ [⟨a, none, JValue.null⟩] }, []) := rfl
  have st2 : serverStep closed
      { s with connected_clients :=
          s.connected_clients ++ [⟨a, none, JValue.null⟩] }
      (.message a (authEnvelope "controller" nA)) =
      (⟨s.connected_clients ++ [⟨a, some .CONTROLLER, JValue.str nA⟩],
        s.available_effects, some a⟩, out1) := by
    simp only [serverStep]
    rw [he1]
  have st3 : serverStep closed
      ⟨s.connected_clients ++ [⟨a, some .CONTROLLER, JValue.str nA⟩],
        s.available_effects, some a⟩ (.connect b) =
      (⟨(s.connected_clients ++ [⟨a, some .CONTROLLER, JValue.str nA⟩]) ++
          [⟨b, none, JValue.null⟩], s.available_effects, some a⟩, []) := rfl
  have st4 : serverStep closed
      ⟨(s.connected_clients ++ [⟨a, some .CONTROLLER, JValue.str nA⟩]) ++
          [⟨b, none, JValue.null⟩], s.available_effects, some a⟩
      (.message b (authEnvelope "controller" nB)) =
      (⟨(s.connected_clients ++ [⟨a, some .CONTROLLER, JValue.str nA⟩]) ++
          [⟨b, some .CONTROLLER, JValue.str nB⟩],
        s.available_effects, some b⟩, out2) := by
    simp only [serverStep]
    rw [he2]
  have hrun : (runEvents closed s
      [.connect a, .message a (authEnvelope "controller" nA),
       .connect b, .message b (authEnvelope "controller" nB)]).1 =
      ⟨(s.connected_clients ++ [⟨a, some .CONTROLLER, JValue.str nA⟩]) ++
          [⟨b, some .CONTROLLER, JValue.str nB⟩],
        s.available_effects, some b⟩ := by
    simp only [runEvents, st1, st2, st3, st4]
  refine ⟨by rw [hrun], ?_, ?_⟩
  · rw [hrun]
    simp [serverIds]
  · intro o ho
    have hd := roster_push_dest closed _ b (by rw [hrun]) o ho
    exact ⟨hd, by rw [hd]; exact Ne.symm hab⟩

/-- Witness for the amended C1 from the empty initial state with handles 2
and 3. -/
theorem C1_witness :
    ((runEvents [] initialServerInformation
        [.connect 2, .message 2 (authEnvelope "controller" "A"),
         .connect 3, .message 3 (authEnvelope "controller" "B")]).1).controller_client =
      some 3 ∧
    2 ∈ serverIds (runEvents [] initialServerInformation
        [.connect 2, .message 2 (authEnvelope "controller" "A"),
         .connect 3, .message 3 (authEnvelope "controller" "B")]).1 := by
  have h := C1_amended [] initialServerInformation 2 3 "A" "B" (by decide)
    (by decide) (by decide) (by decide) (by decide) (by intro c hc; cases hc)
  exact ⟨h.1, h.2.1⟩
